import Mathlib

/-!
Verification development for the ArticyXImporterForUnreal plugin sources.

The C++ sources are shallowly embedded: each editor-module routine that only
issues engine registration calls is modelled as the list of registration
events it emits, pure decision procedures (import-status validity, package
load-settings update, tooltip content construction, global-variables code
generation) are modelled as Lean functions over explicit inputs, and stateful
members (the import queue) are modelled by explicit state passing.

Engine functions whose bodies are outside the provided sources
(`CodeGenerator::GetGlobalVarsClassname`, `CodeGenerator::GetSourceFolder`,
`FArticyGVar::GetCPPTypeString/GetCPPValueString`, `UArticyObject::FindAsset`)
are treated as opaque inputs: they appear as record fields or function-typed
parameters, never as hard-coded values.
-/

/-! ## Editor module registration events (ArticyEditorModule.cpp) -/

/-- One engine registration call issued by `FArticyEditorModule`.  Each
constructor corresponds to one kind of Unreal Editor API call made by the
module's `Register*` helpers. -/
inductive RegistrationEvent where
  | assetTypeAction (name : String)
  | consoleCommands
  | articyIdWidgetCustomization
  | propertyTypeLayout (typeName : String)
  | classLayout (className : String)
  | customizationModuleChanged
  | graphPinFactory
  | settingsSection (container category sectionName displayName : String)
  | mapAction (command : String)
  | toolbarSection
  | nomadTabSpawner (tabId displayName : String) (hiddenMenuType : Bool)
  | directoryWatcher (folder : String)
  | styleInitialize
deriving DecidableEq, Repr

/-- `FArticyEditorModule::RegisterAssetTypeActions`: registers the two articy
asset type actions. -/
def registerAssetTypeActions : List RegistrationEvent :=
  [.assetTypeAction "ArticyGv", .assetTypeAction "ArticyAlterativeGV"]

/-- `FArticyEditorModule::RegisterDetailCustomizations`: registers the two
property-type layouts and the two class layouts, then notifies the property
module. -/
def registerDetailCustomizations : List RegistrationEvent :=
  [.propertyTypeLayout "ArticyId",
   .propertyTypeLayout "ArticyRef",
   .classLayout "ArticyPluginSettings",
   .classLayout "ArticyGlobalVariables",
   .customizationModuleChanged]

/-- `FArticyEditorModule::RegisterPluginSettings`: registers the
Project/Plugins/ArticyImporter settings section, but only when the Settings
module can be obtained (`GetModulePtr` non-null). -/
def registerPluginSettings (settingsModulePresent : Bool) : List RegistrationEvent :=
  if settingsModulePresent then
    [.settingsSection "Project" "Plugins" "ArticyImporter" "Articy X Importer"]
  else []

/-- `FArticyEditorModule::RegisterPluginCommands`: maps the two plugin
commands onto the command list. -/
def registerPluginCommands : List RegistrationEvent :=
  [.mapAction "OpenArticyImporter", .mapAction "OpenArticyGvDebugger"]

/-- `FArticyEditorModule::RegisterToolTabs`: registers the two nomad tab
spawners, both with `ETabSpawnerMenuType::Hidden`. -/
def registerToolTabs : List RegistrationEvent :=
  [.nomadTabSpawner "ArticyWindowTab" "Articy Menu" true,
   .nomadTabSpawner "ArticyGVDebuggerTab" "Articy GV Debugger" true]

/-- `FArticyEditorModule::RegisterDirectoryWatcher`: registers a directory
changed callback on the generated source folder.  The folder string is the
result of `CodeGenerator::GetSourceFolder()`, passed in opaquely. -/
def registerDirectoryWatcher (sourceFolder : String) : List RegistrationEvent :=
  [.directoryWatcher sourceFolder]

/-- `FArticyEditorModule::StartupModule`: the sequence of registration events
issued at module startup, in source order.  `isWindows` selects the
`PLATFORM_WINDOWS` branch of
`RegisterDefaultArticyIdPropertyWidgetExtensions`; `settingsModulePresent`
is whether `GetModulePtr<ISettingsModule>` succeeds.  The
`RegisterDirectoryWatcher()` call in the source is commented out
("directory watcher has to be changed or removed as the results aren't quite
deterministic"), so no `directoryWatcher` event is emitted. -/
def startupModule (isWindows settingsModulePresent : Bool) : List RegistrationEvent :=
  registerAssetTypeActions
    ++ [.consoleCommands]
    ++ (if isWindows then [.articyIdWidgetCustomization] else [])
    ++ registerDetailCustomizations
    ++ [.graphPinFactory]
    ++ registerPluginSettings settingsModulePresent
    ++ registerPluginCommands
    ++ [.toolbarSection]
    ++ registerToolTabs
    ++ [.styleInitialize]

/-- Whether a registration event list contains a directory-watcher
registration. -/
def containsDirectoryWatcher (events : List RegistrationEvent) : Bool :=
  events.any fun e =>
    match e with
    | .directoryWatcher _ => true
    | _ => false

/-! ## Import status validity (FArticyEditorModule::CheckImportStatusValidity) -/

/-- The `EImportStatusValidity` enumeration. -/
inductive EImportStatusValidity where
  | Valid
  | ImportantAssetMissing
  | FileMissing
  | ImportDataAssetMissing
deriving DecidableEq, Repr

/-- `FArticyEditorModule::CheckImportStatusValidity`.
`importDataAssetExists` is whether `EnsureImportDataAsset` produced a non-null
`ImportData`; `numCodeFiles` is the number of files `FindFiles` reports in the
generated source folder; `assetsLoaded` records, for each asset found under
the articy generated folder, whether `Data.GetAsset()` returned non-null. -/
def checkImportStatusValidity (importDataAssetExists : Bool) (numCodeFiles : Nat)
    (assetsLoaded : List Bool) : EImportStatusValidity :=
  if !importDataAssetExists then .ImportDataAssetMissing
  else if numCodeFiles < 5 then .FileMissing
  else if assetsLoaded.any (fun loaded => !loaded) then .FileMissing
  else if assetsLoaded.length < 3 then .ImportantAssetMissing
  else .Valid

/-- `FArticyEditorModule::OnGeneratedCodeChanged`: recomputes the import
status validity and, only when it is `FileMissing`, opens a Yes/No dialog and
on Yes forces a complete reimport.  Returns (dialog opened, reimport forced).
`userConfirms` is the user's answer to the dialog, consulted only when the
dialog opens. -/
def onGeneratedCodeChanged (importDataAssetExists : Bool) (numCodeFiles : Nat)
    (assetsLoaded : List Bool) (userConfirms : Bool) : Bool × Bool :=
  let validity := checkImportStatusValidity importDataAssetExists numCodeFiles assetsLoaded
  if validity = .FileMissing then (true, userConfirms) else (false, false)

/-! ## Import queue (FArticyEditorModule::QueueImport / TriggerQueuedImport) -/

/-- The import-queue related state of `FArticyEditorModule`:
`bIsImportQueued`, the stored `QueuedImportHandle` (none after `Reset`), and
the set of handles currently registered on `FEditorDelegates::EndPIE`,
modelled as a list. -/
structure ImportQueueState where
  bIsImportQueued : Bool
  queuedImportHandle : Option Nat
  endPIEDelegates : List Nat
deriving DecidableEq, Repr

/-- `FArticyEditorModule::IsImportQueued`. -/
def isImportQueued (s : ImportQueueState) : Bool :=
  s.bIsImportQueued

/-- `FArticyEditorModule::QueueImport`: sets the queued flag, opens the
non-modal dialog (no state effect modelled), and stores the handle returned
by `FEditorDelegates::EndPIE.AddRaw`. `newHandle` is that fresh handle. -/
def queueImport (s : ImportQueueState) (newHandle : Nat) : ImportQueueState :=
  { bIsImportQueued := true
    queuedImportHandle := some newHandle
    endPIEDelegates := s.endPIEDelegates ++ [newHandle] }

/-- `FEditorDelegates::EndPIE.Remove(handle)`: removing with an invalid
(reset) handle is a no-op. -/
def removeEndPIEDelegate (delegates : List Nat) (handle : Option Nat) : List Nat :=
  match handle with
  | none => delegates
  | some h => delegates.filter (fun x => x ≠ h)

/-- `FArticyEditorModule::UnqueueImport`: removes the stored delegate, resets
the handle, clears the queued flag. -/
def unqueueImport (s : ImportQueueState) : ImportQueueState :=
  { bIsImportQueued := false
    queuedImportHandle := none
    endPIEDelegates := removeEndPIEDelegate s.endPIEDelegates s.queuedImportHandle }

/-- `FArticyEditorModule::TriggerQueuedImport`: reimports changes (an engine
call with no effect on this state), then unqueues. -/
def triggerQueuedImport (s : ImportQueueState) : ImportQueueState :=
  unqueueImport s

/-! ## Plugin settings detail customization
(FArticyPluginSettingsCustomization::CustomizeDetails) -/

/-- Result of one `CustomizeDetails` run: whether the refresh delegate was
added to `OnAssetsGenerated`, the package names for which an
`SPackageSettings` row was added to the "Default packages" category (in
order), and whether a refresh was scheduled on `OnFilesLoaded`. -/
structure CustomizeDetailsResult where
  registeredAssetsGeneratedRefresh : Bool
  rowsAdded : List String
  scheduledFilesLoadedRefresh : Bool
deriving DecidableEq, Repr

/-- `FArticyPluginSettingsCustomization::CustomizeDetails`.
`database` is `UArticyDatabase::GetMutableOriginal()`: `none` when the weak
pointer is invalid, otherwise the list returned by
`GetImportedPackageNames()`.  `isLoadingAssets` is
`AssetRegistry.IsLoadingAssets()`.  The source first builds one
`SPackageSettings` widget per package name, then adds one custom row per
widget; both loops are kept. -/
def customizeDetails (database : Option (List String)) (isLoadingAssets : Bool) :
    CustomizeDetailsResult :=
  match database with
  | none =>
      { registeredAssetsGeneratedRefresh := true
        rowsAdded := []
        scheduledFilesLoadedRefresh := isLoadingAssets }
  | some importedPackageNames =>
      let packageSettingsWidgets :=
        importedPackageNames.foldl (fun widgets name => widgets ++ [name]) []
      let rows :=
        packageSettingsWidgets.foldl (fun rows w => rows ++ [w]) []
      { registeredAssetsGeneratedRefresh := true
        rowsAdded := rows
        scheduledFilesLoadedRefresh := false }

/-! ## Articy object tooltip (SArticyObjectToolTip::CreateToolTipContent) -/

/-- The fields of the object shown by the tooltip, as the source reads them:
`displayName` is `some s` iff the object casts to
`IArticyObjectWithDisplayName` (with `GetDisplayName() = s`, possibly empty);
`speakerId` is `some id` iff it casts to `IArticyObjectWithSpeaker`;
`text` is `some t` iff it casts to `IArticyObjectWithText`. -/
structure TooltipObject where
  assetName : String
  className : String
  displayName : Option String
  speakerId : Option Nat
  text : Option String
deriving DecidableEq, Repr

/-- One entry added to the tooltip info box by `AddToToolTipInfoBox`. -/
inductive InfoEntry where
  | speakerEntry (value : String)
  | textEntry (value : String)
  | assetNameEntry (value : String)
  | classNameEntry (value : String)
deriving DecidableEq, Repr

/-- `SArticyObjectToolTip::CreateToolTipContent`, returning the title text
and the info-box entries in order.  `findSpeakerDisplayName id` models the
composition `Cast<IArticyObjectWithDisplayName>(UArticyObject::FindAsset(id))`:
`none` when no asset is found or the found asset lacks the interface (the
cast yields null), `some d` when it yields a valid object with display name
`d`.  In the `none` case the source calls `GetDisplayName()` through that
null pointer; the model returns `none` for this null dereference. -/
def createToolTipContent (findSpeakerDisplayName : Nat → Option String)
    (obj : TooltipObject) : Option (String × List InfoEntry) :=
  let nameText := obj.assetName
  let classText := "(" ++ obj.className ++ ")"
  let (nameText, bUsingDisplayName) :=
    match obj.displayName with
    | some displayName =>
        if displayName ≠ "" then (displayName, true) else (nameText, false)
    | none => (nameText, false)
  let speakerEntries : Option (List InfoEntry) :=
    match obj.speakerId with
    | some speakerId =>
        match findSpeakerDisplayName speakerId with
        | none => none
        | some displayNameOfSpeaker => some [.speakerEntry displayNameOfSpeaker]
    | none => some []
  match speakerEntries with
  | none => none
  | some speakerEntries =>
      let textEntries :=
        match obj.text with
        | some t => if t = "" then [] else [.textEntry ("\"" ++ t ++ "\"")]
        | none => []
      let assetNameEntries :=
        if bUsingDisplayName then [InfoEntry.assetNameEntry obj.assetName] else []
      some (nameText,
        speakerEntries ++ textEntries ++ assetNameEntries ++ [.classNameEntry classText])

/-- Claim-side title: the object's display name when it provides a non-empty
one, the asset name otherwise. -/
def claimTooltipTitle (obj : TooltipObject) : String :=
  match obj.displayName with
  | some d => if d = "" then obj.assetName else d
  | none => obj.assetName

/-- Claim-side flag: a display name replaced the asset name as the title. -/
def claimUsesDisplayName (obj : TooltipObject) : Bool :=
  match obj.displayName with
  | some d => d ≠ ""
  | none => false

/-- Claim-side info-box contents, in the claimed order and under the claimed
conditions: the speaker's display name when the object has a speaker, the
text wrapped in double quotes when non-empty, the asset name when a display
name replaced it as the title, and always the class name in parentheses. -/
def claimTooltipInfoEntries (findSpeakerDisplayName : Nat → Option String)
    (obj : TooltipObject) : List InfoEntry :=
  (match obj.speakerId with
   | some sid => [InfoEntry.speakerEntry ((findSpeakerDisplayName sid).getD "")]
   | none => [])
  ++ (match obj.text with
      | some t => if t = "" then [] else [InfoEntry.textEntry ("\"" ++ t ++ "\"")]
      | none => [])
  ++ (if claimUsesDisplayName obj then [InfoEntry.assetNameEntry obj.assetName] else [])
  ++ [InfoEntry.classNameEntry ("(" ++ obj.className ++ ")")]

/-! ## Package load settings (UArticyPluginSettings::UpdatePackageSettings) -/

/-- `TMap<FString, bool>` modelled as an association list.  `Find`. -/
def tmapFind (m : List (String × Bool)) (k : String) : Option Bool :=
  (m.find? (fun p => p.1 == k)).map (fun p => p.2)

/-- `TMap::Contains`. -/
def tmapContains (m : List (String × Bool)) (k : String) : Bool :=
  m.any (fun p => p.1 == k)

/-- `TMap::Remove`: drops the entry with the given key. -/
def tmapRemove (m : List (String × Bool)) (k : String) : List (String × Bool) :=
  m.filter (fun p => !(p.1 == k))

/-- `TMap::Add`: replaces the value when the key is present, otherwise
appends a new entry. -/
def tmapAdd (m : List (String × Bool)) (k : String) (v : Bool) : List (String × Bool) :=
  if tmapContains m k then
    m.map (fun p => if p.1 == k then (k, v) else p)
  else m ++ [(k, v)]

/-- The parts of `UArticyDatabase` consulted by `UpdatePackageSettings`:
`GetImportedPackageNames()` and `IsPackageDefaultPackage(name)`. -/
structure ArticyDatabaseModel where
  importedPackageNames : List String
  isPackageDefaultPackage : String → Bool

/-- Body of the first `UpdatePackageSettings` loop: remove the loading rule
of an old name not contained in the new packages. -/
def removePackageStep (importedPackageNames : List String)
    (acc : List (String × Bool)) (name : String) : List (String × Bool) :=
  if importedPackageNames.contains name then acc else tmapRemove acc name

/-- Body of the second `UpdatePackageSettings` loop: add a new name not
contained in the serialized data with its default package value. -/
def addPackageStep (db : ArticyDatabaseModel) (currentNames : List String)
    (acc : List (String × Bool)) (name : String) : List (String × Bool) :=
  if currentNames.contains name then acc
  else tmapAdd acc name (db.isPackageDefaultPackage name)

/-- `UArticyPluginSettings::UpdatePackageSettings`, acting on the
`PackageLoadSettings` map.  `database` is
`UArticyDatabase::GetMutableOriginal()` (`none` when the weak pointer is
invalid, in which case the function returns immediately).  The two source
loops — remove every current key not among the imported names, then add
every imported name not among the (snapshotted) current keys with its
default-package flag — are kept as folds.  The trailing
`ApplyPreviousSettings()` call only writes back into the database and does
not touch `PackageLoadSettings`. -/
def updatePackageSettings (database : Option ArticyDatabaseModel)
    (packageLoadSettings : List (String × Bool)) : List (String × Bool) :=
  match database with
  | none => packageLoadSettings
  | some db =>
      let importedPackageNames := db.importedPackageNames
      let currentNames := packageLoadSettings.map Prod.fst
      let afterRemove :=
        currentNames.foldl (removePackageStep importedPackageNames) packageLoadSettings
      importedPackageNames.foldl (addPackageStep db currentNames) afterRemove

/-! ## Global variables code generation (GlobalVarsGenerator::GenerateCode) -/

/-- `FArticyGVar`, with the two derived strings
(`GetCPPTypeString`/`GetCPPValueString`, defined outside the provided
sources) carried as opaque fields. -/
structure FArticyGVar where
  Variable : String
  Description : String
  cppTypeString : String
  cppValueString : String
deriving DecidableEq, Repr

/-- `FArticyGVNamespace`. -/
structure FArticyGVNamespace where
  Namespace : String
  Description : String
  CppTypename : String
  Variables : List FArticyGVar
deriving DecidableEq, Repr

/-- `FArticyGVInfo`. -/
structure FArticyGVInfo where
  Namespaces : List FArticyGVNamespace
deriving DecidableEq, Repr

/-- The parts of `UArticyImportData` read by `GlobalVarsGenerator`:
`GetGlobalVars()` plus the two results of
`CodeGenerator::GetGlobalVarsClassname(Data, bOmitPrefix)` (defined outside
the provided sources, carried opaquely). -/
structure UArticyImportData where
  GlobalVariables : FArticyGVInfo
  globalVarsClassnameFull : String
  globalVarsClassname : String
deriving DecidableEq, Repr

/-- One element emitted through a `CodeFileGenerator`: `Line`, an empty
`Line()`, `Comment`, `Variable` (with UPROPERTY flag and specifier string),
`Method` (with body, optional comment, UFUNCTION flag and specifier string)
or `Class` (with body and UCLASS flag). -/
inductive CodeElem where
  | line (txt : String)
  | blank
  | commentLine (txt : String)
  | variableDecl (type name defaultValue description : String)
      (uproperty : Bool) (specifiers : String)
  | methodDecl (returnType name parameters : String) (body : List CodeElem)
      (methodComment : Option String) (ufunction : Bool) (specifiers : String)
  | classDecl (classHeader description : String) (uclass : Bool) (body : List CodeElem)

/-- Body of the generated `UArticyBaseVariableSet`-derived class for one
namespace: the public section, one UPROPERTY pointer per variable, the
constructor creating one default subobject per variable, and the `Init`
method with one `Init` call and one `Variables.Add` call per variable. -/
def nsClassBody (ns : FArticyGVNamespace) : List CodeElem :=
  [.line "public:"]
  ++ ns.Variables.map (fun var =>
      CodeElem.variableDecl (var.cppTypeString ++ "*") var.Variable "nullptr"
        var.Description true
        ("VisibleAnywhere, BlueprintReadOnly, Category=\"" ++ ns.Namespace ++ "\""))
  ++ [.blank]
  ++ [.methodDecl "" ns.CppTypename ""
        (ns.Variables.map (fun var =>
          CodeElem.line (var.Variable ++ " = CreateDefaultSubobject<"
            ++ var.cppTypeString ++ ">(\"" ++ var.Variable ++ "\");")))
        none false ""]
  ++ [.blank]
  ++ [.methodDecl "void" "Init" "UArticyGlobalVariables* const Store"
        ([.commentLine "initialize the variables"]
          ++ ns.Variables.flatMap (fun var =>
            [CodeElem.line (var.Variable ++ "->Init<" ++ var.cppTypeString
                ++ ">(this, Store, TEXT(\"" ++ ns.Namespace ++ "." ++ var.Variable
                ++ "\"), " ++ var.cppValueString ++ ");"),
             CodeElem.line ("this->Variables.Add(" ++ var.Variable ++ ");")]))
        none false ""]

/-- The generated class for one namespace. -/
def nsClassElem (ns : FArticyGVNamespace) : CodeElem :=
  .classDecl (ns.CppTypename ++ " : public UArticyBaseVariableSet") ns.Description
    true (nsClassBody ns)

/-- Body of the generated `UArticyGlobalVariables`-derived class: one
UPROPERTY pointer per namespace, the constructor creating each namespace
subobject then calling `Init()`, the `Init` method calling each namespace's
`Init` and adding it to `VariableSets`, and the static `GetDefault`
accessor. -/
def globalClassBody (data : UArticyImportData) : List CodeElem :=
  let type := data.globalVarsClassname
  let namespaces := data.GlobalVariables.Namespaces
  [.line "public:"]
  ++ namespaces.map (fun ns =>
      CodeElem.variableDecl (ns.CppTypename ++ "*") ns.Namespace "nullptr"
        ns.Description true
        ("VisibleAnywhere, BlueprintReadOnly, Category=\"" ++ ns.Namespace ++ "\""))
  ++ [.blank]
  ++ [.methodDecl "" type ""
        ([.commentLine "create the namespaces"]
          ++ namespaces.map (fun ns =>
            CodeElem.line (ns.Namespace ++ " = CreateDefaultSubobject<"
              ++ ns.CppTypename ++ ">(\"" ++ ns.Namespace ++ "\");"))
          ++ [.blank, .line "Init();"])
        none false ""]
  ++ [.blank]
  ++ [.methodDecl "void" "Init" ""
        ([.commentLine "initialize the namespaces"]
          ++ namespaces.flatMap (fun ns =>
            [CodeElem.line (ns.Namespace ++ "->Init(this);"),
             CodeElem.line ("this->VariableSets.Add(" ++ ns.Namespace ++ ");")]))
        none false ""]
  ++ [.blank]
  ++ [.methodDecl ("static " ++ type ++ "*") "GetDefault" "const UObject* WorldContext"
        [.line ("return static_cast<" ++ type
          ++ "*>(UArticyGlobalVariables::GetDefault(WorldContext));")]
        (some "Get the default GlobalVariables (a copy of the asset).") true
        ("BlueprintPure, Category=\"ArticyGlobalVariables\", meta=(HidePin=\"WorldContext\", DefaultToSelf=\"WorldContext\", DisplayName=\"GetArticyGV\", keywords=\"global variables\")")]

/-- The full content handed to the `CodeFileGenerator` for the global
variables header: includes, the warning pragma block, one class per
namespace (each preceded by an empty line), an empty line, the global
variables class, and the closing pragma block. -/
def gvHeaderContent (data : UArticyImportData) (outFile : String) : List CodeElem :=
  [.line "#include \"CoreUObject.h\"",
   .line "#include \"ArticyGlobalVariables.h\"",
   .line ("#include \"" ++ outFile ++ ".generated.h\""),
   .line "#if !((defined(PLATFORM_PS4) && PLATFORM_PS4) || (defined(PLATFORM_PS5) && PLATFORM_PS5))",
   .line "#pragma warning(push)",
   .line "#pragma warning(disable: 4883) //<disable \"optimization cannot be applied due to function size\" compile error.",
   .line "#endif"]
  ++ data.GlobalVariables.Namespaces.flatMap (fun ns => [.blank, nsClassElem ns])
  ++ [.blank,
      .classDecl (data.globalVarsClassname ++ " : public UArticyGlobalVariables")
        "Global Articy Variables" true (globalClassBody data)]
  ++ [.line "#if !((defined(PLATFORM_PS4) && PLATFORM_PS4) || (defined(PLATFORM_PS5) && PLATFORM_PS5))",
   .line "#pragma warning(pop)",
   .line "#endif"]

/-- `GlobalVarsGenerator::GenerateCode`: on a null `Data` the `ensure`
fails and the function returns with `OutFile` untouched and no file
generated (`none`); otherwise `OutFile` is set to the full global-vars
classname and the header content is emitted. -/
def generateCode (data : Option UArticyImportData) (outFile : String) :
    String × Option (List CodeElem) :=
  match data with
  | none => (outFile, none)
  | some d =>
      let out := d.globalVarsClassnameFull
      (out, some (gvHeaderContent d out))

/-! ## Extraction of the generated class structure -/

/-- The text of a plain emitted line, if any. -/
def lineOf : CodeElem → Option String
  | .line txt => some txt
  | _ => none

/-- Type and name of an emitted UPROPERTY variable declaration, if any. -/
def uvarOf : CodeElem → Option (String × String)
  | .variableDecl type name _ _ true _ => some (type, name)
  | _ => none

/-- Name and body lines of an emitted method, if any. -/
def methodOf : CodeElem → Option (String × List String)
  | .methodDecl _ name _ body _ _ _ => some (name, body.filterMap lineOf)
  | _ => none

/-- Structural summary of one generated class: its declaration header, its
UPROPERTY variable declarations (type and name, in order), and its methods
(name and body lines, in order). -/
structure ClassSummary where
  classHeader : String
  uvarDecls : List (String × String)
  methodSummaries : List (String × List String)
deriving DecidableEq, Repr

/-- Summary of an emitted class declaration, if any. -/
def classSummaryOf : CodeElem → Option ClassSummary
  | .classDecl classHeader _ _ body =>
      some ⟨classHeader, body.filterMap uvarOf, body.filterMap methodOf⟩
  | _ => none

/-- The summaries of all classes emitted at the top level of a generated
file, in order. -/
def docClassSummaries (doc : List CodeElem) : List ClassSummary :=
  doc.filterMap classSummaryOf

/-- Claim-side summary of the class generated for one namespace: a
`UArticyBaseVariableSet`-derived class containing exactly one UPROPERTY
pointer per variable, a constructor with one `CreateDefaultSubobject` line
per variable, and an `Init` method with one `Init` call and one
`Variables.Add` call per variable. -/
def claimNamespaceClassSummary (ns : FArticyGVNamespace) : ClassSummary where
  classHeader := ns.CppTypename ++ " : public UArticyBaseVariableSet"
  uvarDecls := ns.Variables.map (fun var => (var.cppTypeString ++ "*", var.Variable))
  methodSummaries :=
    [(ns.CppTypename,
      ns.Variables.map (fun var =>
        var.Variable ++ " = CreateDefaultSubobject<" ++ var.cppTypeString
          ++ ">(\"" ++ var.Variable ++ "\");")),
     ("Init",
      ns.Variables.flatMap (fun var =>
        [var.Variable ++ "->Init<" ++ var.cppTypeString ++ ">(this, Store, TEXT(\""
            ++ ns.Namespace ++ "." ++ var.Variable ++ "\"), " ++ var.cppValueString ++ ");",
         "this->Variables.Add(" ++ var.Variable ++ ");"]))]

/-- Claim-side summary of the single `UArticyGlobalVariables`-derived class:
one pointer per namespace, a constructor that creates each namespace
subobject and then calls `Init()`, an `Init` method that calls each
namespace's `Init` and adds it to `VariableSets`, plus the emitted static
`GetDefault` accessor. -/
def claimGlobalClassSummary (data : UArticyImportData) : ClassSummary where
  classHeader := data.globalVarsClassname ++ " : public UArticyGlobalVariables"
  uvarDecls :=
    data.GlobalVariables.Namespaces.map (fun ns => (ns.CppTypename ++ "*", ns.Namespace))
  methodSummaries :=
    [(data.globalVarsClassname,
      data.GlobalVariables.Namespaces.map (fun ns =>
        ns.Namespace ++ " = CreateDefaultSubobject<" ++ ns.CppTypename
          ++ ">(\"" ++ ns.Namespace ++ "\");") ++ ["Init();"]),
     ("Init",
      data.GlobalVariables.Namespaces.flatMap (fun ns =>
        [ns.Namespace ++ "->Init(this);",
         "this->VariableSets.Add(" ++ ns.Namespace ++ ");"])),
     ("GetDefault",
      ["return static_cast<" ++ data.globalVarsClassname
        ++ "*>(UArticyGlobalVariables::GetDefault(WorldContext));"])]

/-! ## Concrete inputs used by witnesses and counterexamples -/

/-- A speaker-resolution environment in which every speaker id resolves to a
display-name object. -/
def tooltipEnvW : Nat → Option String := fun _ => some "Alice"

/-- A concrete tooltip object with display name, speaker and text. -/
def tooltipObjW : TooltipObject :=
  { assetName := "DlgFragment_42"
    className := "UDialogueFragment"
    displayName := some "Hero"
    speakerId := some 7
    text := some "Hi!" }

/-- A speaker-resolution environment in which no asset is found for any
speaker id (or the found asset lacks `IArticyObjectWithDisplayName`). -/
def nullSpeakerEnv : Nat → Option String := fun _ => none

/-- A concrete object implementing `IArticyObjectWithSpeaker` whose speaker
id resolves to no display-name object. -/
def nullSpeakerObj : TooltipObject :=
  { assetName := "DlgFragment_7"
    className := "UDialogueFragment"
    displayName := none
    speakerId := some 7
    text := some "Hello" }

/-- A concrete database: packages "A" and "B" imported, "A" a default
package. -/
def articyDbW : ArticyDatabaseModel :=
  { importedPackageNames := ["A", "B"]
    isPackageDefaultPackage := fun name => name == "A" }

/-- A concrete previous `PackageLoadSettings` map: "B" kept by the user at
`false`, "C" no longer imported. -/
def packageLoadSettingsW : List (String × Bool) :=
  [("B", false), ("C", true)]

/-! ## Helper lemmas -/

/-- Folding append-singleton builds the list back in order. -/
theorem foldl_append_singleton {α : Type} (l acc : List α) :
    l.foldl (fun r a => r ++ [a]) acc = acc ++ l := by
  induction l generalizing acc with
  | nil => simp
  | cons a l ih => simp [ih]

/-- `filterMap` distributes over `flatMap`. -/
theorem filterMap_flatMap_eq {α β γ : Type} (l : List α) (f : α → List β)
    (g : β → Option γ) :
    (l.flatMap f).filterMap g = l.flatMap (fun a => (f a).filterMap g) := by
  induction l with
  | nil => rfl
  | cons a l ih => simp [List.flatMap_cons, List.filterMap_append, ih]

/-- `filterMap` after `map` when every image is kept. -/
theorem filterMap_map_some {α β γ : Type} (l : List α) (f : α → β) (g : β → Option γ)
    (h : α → γ) (hfg : ∀ a, g (f a) = some (h a)) :
    (l.map f).filterMap g = l.map h := by
  induction l with
  | nil => rfl
  | cons a l ih => simp [hfg, ih]

/-- `filterMap` after `map` when every image is dropped. -/
theorem filterMap_map_none {α β γ : Type} (l : List α) (f : α → β) (g : β → Option γ)
    (hfg : ∀ a, g (f a) = none) :
    (l.map f).filterMap g = [] := by
  induction l with
  | nil => rfl
  | cons a l ih => simp [hfg, ih]

/-! ## Theorems -/

/-- C7: calling `GlobalVarsGenerator::GenerateCode` with a null `Data`
pointer generates nothing and leaves `OutFile` unchanged. -/
theorem generateCode_nullData (outFile : String) :
    generateCode none outFile = (outFile, none) := rfl

/-- C4: every `StartupModule` run registers the ArticyId and ArticyRef
property-type customizations, the ArticyPluginSettings and
ArticyGlobalVariables class customizations, the two hidden nomad tab
spawners (Articy Menu, Articy GV Debugger), and — exactly when the Settings
module is present — the Project/Plugins/ArticyImporter settings section. -/
theorem startupModule_registrations (isWindows : Bool) :
    (RegistrationEvent.propertyTypeLayout "ArticyId" ∈ startupModule isWindows true
      ∧ RegistrationEvent.propertyTypeLayout "ArticyId" ∈ startupModule isWindows false)
  ∧ (RegistrationEvent.propertyTypeLayout "ArticyRef" ∈ startupModule isWindows true
      ∧ RegistrationEvent.propertyTypeLayout "ArticyRef" ∈ startupModule isWindows false)
  ∧ (RegistrationEvent.classLayout "ArticyPluginSettings" ∈ startupModule isWindows true
      ∧ RegistrationEvent.classLayout "ArticyPluginSettings" ∈ startupModule isWindows false)
  ∧ (RegistrationEvent.classLayout "ArticyGlobalVariables" ∈ startupModule isWindows true
      ∧ RegistrationEvent.classLayout "ArticyGlobalVariables" ∈ startupModule isWindows false)
  ∧ (RegistrationEvent.nomadTabSpawner "ArticyWindowTab" "Articy Menu" true
        ∈ startupModule isWindows true
      ∧ RegistrationEvent.nomadTabSpawner "ArticyWindowTab" "Articy Menu" true
        ∈ startupModule isWindows false)
  ∧ (RegistrationEvent.nomadTabSpawner "ArticyGVDebuggerTab" "Articy GV Debugger" true
        ∈ startupModule isWindows true
      ∧ RegistrationEvent.nomadTabSpawner "ArticyGVDebuggerTab" "Articy GV Debugger" true
        ∈ startupModule isWindows false)
  ∧ (RegistrationEvent.settingsSection "Project" "Plugins" "ArticyImporter" "Articy X Importer"
        ∈ startupModule isWindows true
      ∧ (startupModule isWindows false).countP
          (fun e => match e with | .settingsSection _ _ _ _ => true | _ => false) = 0) := by
  cases isWindows <;> decide

/-- C3 counterexample: at module startup (concretely on Windows with the
Settings module present) no directory-watcher registration is issued — the
`RegisterDirectoryWatcher()` call is commented out in `StartupModule`. -/
theorem startupModule_watcher_counterexample :
    containsDirectoryWatcher (startupModule true true) = false := by decide

/-- C3 amended: the directory-watcher subsystem exists
(`RegisterDirectoryWatcher` would watch the generated source folder, and
`OnGeneratedCodeChanged` prompts the user exactly when the recomputed import
status is `FileMissing`, forcing a complete reimport exactly when the user
confirms), but module startup never registers the watcher. -/
theorem directoryWatcher_disabled (isWindows settingsModulePresent : Bool)
    (sourceFolder : String) (importDataAssetExists : Bool) (numCodeFiles : Nat)
    (assetsLoaded : List Bool) (userConfirms : Bool) :
    containsDirectoryWatcher (startupModule isWindows settingsModulePresent) = false
  ∧ registerDirectoryWatcher sourceFolder = [.directoryWatcher sourceFolder]
  ∧ ((onGeneratedCodeChanged importDataAssetExists numCodeFiles assetsLoaded userConfirms).1
        = true
      ↔ checkImportStatusValidity importDataAssetExists numCodeFiles assetsLoaded
          = .FileMissing)
  ∧ ((onGeneratedCodeChanged importDataAssetExists numCodeFiles assetsLoaded userConfirms).2
        = true
      ↔ (checkImportStatusValidity importDataAssetExists numCodeFiles assetsLoaded
            = .FileMissing ∧ userConfirms = true)) := by
  refine ⟨by cases isWindows <;> cases settingsModulePresent <;> decide, rfl, ?_, ?_⟩ <;>
    · unfold onGeneratedCodeChanged
      by_cases h : checkImportStatusValidity importDataAssetExists numCodeFiles assetsLoaded
          = .FileMissing <;>
        simp [h]

/-- C3 amended witness: with import data present but only 4 generated code
files, the callback opens the dialog, and forces the reimport exactly on
Yes. -/
theorem directoryWatcher_disabled_witness :
    (onGeneratedCodeChanged true 4 [true, true, true] true).1 = true
    ∧ (onGeneratedCodeChanged true 4 [true, true, true] true).2 = true :=
  ⟨(directoryWatcher_disabled true true "folder" true 4 [true, true, true] true).2.2.1.mpr
      (by decide),
   (directoryWatcher_disabled true true "folder" true 4 [true, true, true] true).2.2.2.mpr
      ⟨by decide, rfl⟩⟩

/-- C6: with a valid database, `CustomizeDetails` adds exactly one
`SPackageSettings` row per imported package name, in order, and schedules no
refresh; with no database it adds no rows and schedules a refresh exactly
when the asset registry is still loading. -/
theorem customizeDetails_rows (importedPackageNames : List String)
    (isLoadingAssets : Bool) :
    customizeDetails (some importedPackageNames) isLoadingAssets =
      { registeredAssetsGeneratedRefresh := true
        rowsAdded := importedPackageNames
        scheduledFilesLoadedRefresh := false }
  ∧ customizeDetails none isLoadingAssets =
      { registeredAssetsGeneratedRefresh := true
        rowsAdded := []
        scheduledFilesLoadedRefresh := isLoadingAssets } := by
  constructor
  · simp [customizeDetails, foldl_append_singleton]
  · rfl

/-- C8: order-free characterization of `CheckImportStatusValidity`: it is
`ImportDataAssetMissing` exactly when the import-data asset is missing;
`FileMissing` exactly when the asset exists but fewer than 5 code files are
found or some articy asset loads as null; `ImportantAssetMissing` exactly
when the asset exists, at least 5 files are found, all assets load, and
fewer than 3 assets exist; `Valid` otherwise. -/
theorem checkImportStatusValidity_cases (importDataAssetExists : Bool)
    (numCodeFiles : Nat) (assetsLoaded : List Bool) :
    (checkImportStatusValidity importDataAssetExists numCodeFiles assetsLoaded
        = .ImportDataAssetMissing ↔ importDataAssetExists = false)
  ∧ (checkImportStatusValidity importDataAssetExists numCodeFiles assetsLoaded
        = .FileMissing
      ↔ importDataAssetExists = true
        ∧ (numCodeFiles < 5 ∨ assetsLoaded.any (fun loaded => !loaded) = true))
  ∧ (checkImportStatusValidity importDataAssetExists numCodeFiles assetsLoaded
        = .ImportantAssetMissing
      ↔ importDataAssetExists = true ∧ 5 ≤ numCodeFiles
        ∧ assetsLoaded.any (fun loaded => !loaded) = false ∧ assetsLoaded.length < 3)
  ∧ (checkImportStatusValidity importDataAssetExists numCodeFiles assetsLoaded
        = .Valid
      ↔ importDataAssetExists = true ∧ 5 ≤ numCodeFiles
        ∧ assetsLoaded.any (fun loaded => !loaded) = false ∧ 3 ≤ assetsLoaded.length) := by
  unfold checkImportStatusValidity
  split_ifs with h1 h2 h3 h4 <;> simp_all

/-- C8 witness: an existing import-data asset, 5 code files and 3 loaded
assets yield `Valid`; with one asset loading as null the status is
`FileMissing`. -/
theorem checkImportStatusValidity_cases_witness :
    checkImportStatusValidity true 5 [true, true, true] = .Valid
    ∧ checkImportStatusValidity true 5 [true, false, true] = .FileMissing :=
  ⟨(checkImportStatusValidity_cases true 5 [true, true, true]).2.2.2.mpr
      (by refine ⟨rfl, by omega, by decide, by decide⟩),
   (checkImportStatusValidity_cases true 5 [true, false, true]).2.1.mpr
      (by exact ⟨rfl, Or.inr (by decide)⟩)⟩

/-- C10: `QueueImport` sets the queued flag and registers the end-of-play
delegate, and `TriggerQueuedImport` always returns the module to idle:
afterwards `IsImportQueued()` is false, the handle is reset, and the queued
delegate has been removed from `EndPIE`. -/
theorem importQueue_returns_idle (s : ImportQueueState) (newHandle : Nat) :
    isImportQueued (queueImport s newHandle) = true
  ∧ (queueImport s newHandle).queuedImportHandle = some newHandle
  ∧ (queueImport s newHandle).endPIEDelegates.contains newHandle = true
  ∧ isImportQueued (triggerQueuedImport (queueImport s newHandle)) = false
  ∧ (triggerQueuedImport (queueImport s newHandle)).queuedImportHandle = none
  ∧ (triggerQueuedImport (queueImport s newHandle)).endPIEDelegates.contains newHandle
      = false
  ∧ isImportQueued (triggerQueuedImport s) = false
  ∧ (triggerQueuedImport s).queuedImportHandle = none := by
  refine ⟨rfl, rfl, ?_, rfl, rfl, ?_, rfl, rfl⟩
  · simp [queueImport, List.contains_eq_any_beq]
  · simp [queueImport, triggerQueuedImport, unqueueImport, removeEndPIEDelegate,
      List.contains_eq_any_beq, List.any_filter]

/-- C5: whenever the speaker branch resolves (the precondition under which
`CreateToolTipContent` completes at all, see the null-speaker theorem), the
built tooltip uses the non-empty display name as title and the asset name
otherwise, and the info box holds, in order and only under these conditions:
the speaker's display name when the object has a speaker, the text in double
quotes when non-empty, the asset name when a display name replaced it as the
title, and always the class name in parentheses. -/
theorem createToolTipContent_content (findSpeakerDisplayName : Nat → Option String)
    (obj : TooltipObject)
    (hSpeaker : ∀ sid, obj.speakerId = some sid →
      (findSpeakerDisplayName sid).isSome = true) :
    createToolTipContent findSpeakerDisplayName obj =
      some (claimTooltipTitle obj, claimTooltipInfoEntries findSpeakerDisplayName obj) := by
  obtain ⟨assetName, className, displayName, speakerId, text⟩ := obj
  unfold createToolTipContent claimTooltipTitle claimTooltipInfoEntries claimUsesDisplayName
  cases speakerId with
  | none =>
      cases displayName with
      | none => cases text <;> simp
      | some d => by_cases hd : d = "" <;> cases text <;> simp [hd]
  | some sid =>
      obtain ⟨spk, hspk⟩ := Option.isSome_iff_exists.mp (hSpeaker sid rfl)
      cases displayName with
      | none => cases text <;> simp [hspk]
      | some d => by_cases hd : d = "" <;> cases text <;> simp [hspk, hd]

/-- C5 witness: a concrete object with display name "Hero", a resolving
speaker and non-empty text. -/
theorem createToolTipContent_content_witness :
    createToolTipContent tooltipEnvW tooltipObjW =
      some (claimTooltipTitle tooltipObjW, claimTooltipInfoEntries tooltipEnvW tooltipObjW) :=
  createToolTipContent_content tooltipEnvW tooltipObjW
    (fun sid _ => by simp [tooltipEnvW])

/-- C9: on an object with a speaker whose id resolves to no asset (or to an
asset without `IArticyObjectWithDisplayName`), `CreateToolTipContent`
reaches `DisplayNameOfSpeaker->GetDisplayName()` with a null
`DisplayNameOfSpeaker`; the model returns `none` for this null
dereference, so the content build does not complete. -/
theorem createToolTipContent_nullSpeaker :
    createToolTipContent nullSpeakerEnv nullSpeakerObj = none := by decide

/-- Unfolding lemma for `tmapFind` on a cons cell. -/
theorem tmapFind_cons (p : String × Bool) (ps : List (String × Bool)) (k : String) :
    tmapFind (p :: ps) k = cond (p.1 == k) (some p.2) (tmapFind ps k) := by
  unfold tmapFind
  rw [List.find?_cons]
  cases hb : (p.1 == k) <;> simp [hb]

/-- Replacing the value stored under key `n` does not change lookups of a
different key `k`. -/
theorem tmapFind_map_replace (m : List (String × Bool)) (n k : String) (v : Bool)
    (hnk : n ≠ k) :
    tmapFind (m.map (fun p => if p.1 == n then (n, v) else p)) k = tmapFind m k := by
  have hnk' : (n == k) = false := beq_eq_false_iff_ne.mpr hnk
  induction m with
  | nil => rfl
  | cons p ps ih =>
    rw [List.map_cons]
    by_cases hp : (p.1 == n) = true
    · have hpk : (p.1 == k) = false := by
        rw [eq_of_beq hp]; exact hnk'
      rw [if_pos hp, tmapFind_cons, tmapFind_cons, ih]
      simp [hnk', hpk]
    · rw [if_neg hp, tmapFind_cons, tmapFind_cons, ih]

/-- Appending an entry under key `n` does not change lookups of a different
key `k`. -/
theorem tmapFind_append_other (m : List (String × Bool)) (n k : String) (v : Bool)
    (hnk : n ≠ k) :
    tmapFind (m ++ [(n, v)]) k = tmapFind m k := by
  have hnk' : (n == k) = false := beq_eq_false_iff_ne.mpr hnk
  induction m with
  | nil =>
      rw [List.nil_append, tmapFind_cons]
      simp [hnk', tmapFind]
  | cons p ps ih =>
      rw [List.cons_append, tmapFind_cons, tmapFind_cons, ih]

/-- `tmapAdd` under key `n` does not change lookups of a different key. -/
theorem tmapAdd_find_other (m : List (String × Bool)) (n k : String) (v : Bool)
    (hnk : n ≠ k) :
    tmapFind (tmapAdd m n v) k = tmapFind m k := by
  unfold tmapAdd
  by_cases hc : tmapContains m n = true
  · rw [if_pos hc]; exact tmapFind_map_replace m n k v hnk
  · rw [if_neg hc]; exact tmapFind_append_other m n k v hnk

/-- Replacing the value stored under a present key `n` makes lookups of `n`
yield the new value. -/
theorem tmapFind_map_replace_self (m : List (String × Bool)) (n : String) (v : Bool)
    (hc : tmapContains m n = true) :
    tmapFind (m.map (fun p => if p.1 == n then (n, v) else p)) n = some v := by
  induction m with
  | nil => simp [tmapContains] at hc
  | cons p ps ih =>
    rw [List.map_cons]
    by_cases hp : (p.1 == n) = true
    · rw [if_pos hp, tmapFind_cons]
      simp
    · have hp' : (p.1 == n) = false := by simpa using hp
      have hc' : tmapContains ps n = true := by
        simp only [tmapContains, List.any_cons, hp', Bool.false_or] at hc
        exact hc
      rw [if_neg hp, tmapFind_cons]
      simp only [hp', cond_false]
      exact ih hc'

/-- Appending an entry under an absent key `n` makes lookups of `n` yield the
new value. -/
theorem tmapFind_append_self (m : List (String × Bool)) (n : String) (v : Bool)
    (hc : tmapContains m n = false) :
    tmapFind (m ++ [(n, v)]) n = some v := by
  induction m with
  | nil =>
      rw [List.nil_append, tmapFind_cons]
      simp
  | cons p ps ih =>
      simp only [tmapContains, List.any_cons, Bool.or_eq_false_iff] at hc
      rw [List.cons_append, tmapFind_cons]
      simp only [hc.1, cond_false]
      exact ih (by simpa [tmapContains] using hc.2)

/-- After `tmapAdd m n v`, looking up `n` yields `v`. -/
theorem tmapAdd_find_self (m : List (String × Bool)) (n : String) (v : Bool) :
    tmapFind (tmapAdd m n v) n = some v := by
  unfold tmapAdd
  by_cases hc : tmapContains m n = true
  · rw [if_pos hc]; exact tmapFind_map_replace_self m n v hc
  · rw [if_neg hc]
    exact tmapFind_append_self m n v (by simpa using hc)

/-- Steps of the add loop for names that are either skipped (already current)
or different from `k` leave the lookup of `k` unchanged. -/
theorem addFold_find_preserved (db : ArticyDatabaseModel) (current names : List String)
    (m : List (String × Bool)) (k : String)
    (h : ∀ n ∈ names, current.contains n = false → n ≠ k) :
    tmapFind (names.foldl (addPackageStep db current) m) k = tmapFind m k := by
  induction names generalizing m with
  | nil => rfl
  | cons n ns ih =>
    rw [List.foldl_cons, ih _ (fun x hx => h x (List.mem_cons_of_mem n hx))]
    unfold addPackageStep
    by_cases hc : current.contains n = true
    · rw [if_pos hc]
    · rw [if_neg hc]
      exact tmapAdd_find_other _ _ _ _
        (h n (List.mem_cons_self n ns) (by simpa using hc))

/-- The add loop stores the default-package flag for a processed name that
was not among the current keys. -/
theorem addFold_find_added (db : ArticyDatabaseModel) (current names : List String)
    (m : List (String × Bool)) (k : String)
    (hk : k ∈ names) (hc : current.contains k = false) :
    tmapFind (names.foldl (addPackageStep db current) m) k
      = some (db.isPackageDefaultPackage k) := by
  revert hk
  induction names generalizing m with
  | nil => intro hk; simp at hk
  | cons n ns ih =>
    intro hk
    rw [List.foldl_cons]
    by_cases hkn : k ∈ ns
    · exact ih _ hkn
    · have hnk : n = k := by
        rcases List.mem_cons.mp hk with h | h
        · exact h.symm
        · exact absurd h hkn
      rw [addFold_find_preserved db current ns _ k
        (fun x hx _ hxk => hkn (hxk ▸ hx))]
      unfold addPackageStep
      rw [hnk, if_neg (by simpa using hc)]
      exact tmapAdd_find_self _ _ _

/-- The remove loop over an arbitrary name list keeps exactly the entries
whose key is imported or not visited. -/
theorem removeFold_filter (imported names : List String)
    (m : List (String × Bool)) :
    names.foldl (removePackageStep imported) m
      = m.filter (fun p => imported.contains p.1 || !(names.contains p.1)) := by
  induction names generalizing m with
  | nil => simp
  | cons n ns ih =>
    rw [List.foldl_cons, ih]
    unfold removePackageStep
    by_cases hn : imported.contains n = true
    · rw [if_pos hn]
      refine List.filter_congr ?_
      intro p hp
      by_cases hpn : p.1 = n
      · have hn' : n ∈ imported := by simpa using hn
        simp [hpn, hn']
      · simp [List.contains_cons, hpn]
    · rw [if_neg hn]
      unfold tmapRemove
      rw [List.filter_filter]
      refine List.filter_congr ?_
      intro p hp
      by_cases hpn : p.1 = n
      · have hn' : n ∉ imported := by simpa using hn
        simp [hpn, hn', List.contains_cons]
      · simp [hpn, List.contains_cons, beq_eq_false_iff_ne.mpr hpn]

/-- The source's remove loop — iterating over the map's own key array —
keeps exactly the entries whose key is imported. -/
theorem removeFold_keys (imported : List String) (m : List (String × Bool)) :
    (m.map Prod.fst).foldl (removePackageStep imported) m
      = m.filter (fun p => imported.contains p.1) := by
  rw [removeFold_filter]
  refine List.filter_congr ?_
  intro p hp
  have hmem : p.1 ∈ m.map Prod.fst := List.mem_map_of_mem Prod.fst hp
  simp [hmem]

/-- Keeping all imported-key entries preserves lookups of imported keys. -/
theorem tmapFind_filter_imported (imported : List String)
    (m : List (String × Bool)) (k : String)
    (hk : imported.contains k = true) :
    tmapFind (m.filter (fun p => imported.contains p.1)) k = tmapFind m k := by
  induction m with
  | nil => rfl
  | cons p ps ih =>
    rw [List.filter_cons]
    by_cases hpk : (p.1 == k) = true
    · have hpi : imported.contains p.1 = true := by
        rw [eq_of_beq hpk]; exact hk
      rw [if_pos hpi]
      simp [tmapFind_cons, hpk]
    · have hpk' : (p.1 == k) = false := by simpa using hpk
      by_cases hpi : imported.contains p.1 = true
      · rw [if_pos hpi, tmapFind_cons, tmapFind_cons, ih]
      · rw [if_neg hpi, tmapFind_cons, ih]
        simp [hpk']

/-- Keeping all imported-key entries erases lookups of non-imported keys. -/
theorem tmapFind_filter_not_imported (imported : List String)
    (m : List (String × Bool)) (k : String)
    (hk : imported.contains k = false) :
    tmapFind (m.filter (fun p => imported.contains p.1)) k = none := by
  induction m with
  | nil => rfl
  | cons p ps ih =>
    rw [List.filter_cons]
    by_cases hpi : imported.contains p.1 = true
    · have hpk : (p.1 == k) = false := by
        by_contra h
        have h1 : p.1 = k := eq_of_beq (by simpa using h)
        rw [h1] at hpi
        exact absurd hpi (by simpa using hk)
      rw [if_pos hpi, tmapFind_cons]
      simp only [hpk, cond_false]
      exact ih
    · rw [if_neg hpi]
      exact ih

/-- A key present among the map's keys has a present lookup. -/
theorem tmapFind_isSome_of_contains (m : List (String × Bool)) (k : String)
    (h : (m.map Prod.fst).contains k = true) :
    (tmapFind m k).isSome = true := by
  induction m with
  | nil => simp at h
  | cons p ps ih =>
    rw [tmapFind_cons]
    by_cases hpk : (p.1 == k) = true
    · simp [hpk]
    · have hpk' : (p.1 == k) = false := by simpa using hpk
      simp only [hpk', cond_false]
      apply ih
      have hmem : k ∈ p.1 :: ps.map Prod.fst := by simpa using h
      rcases List.mem_cons.mp hmem with h1 | h2
      · exact absurd (by simp [h1] : (p.1 == k) = true) (by simp [hpk'])
      · simpa using h2

/-- C2: with an invalid database `UpdatePackageSettings` does nothing; with a
valid one the key set of `PackageLoadSettings` afterwards equals the imported
package names (keys not imported are removed, names not yet keys are added
with the database's default-package flag), and every entry whose key was
already present keeps its previous value. -/
theorem updatePackageSettings_spec (db : ArticyDatabaseModel)
    (m : List (String × Bool)) :
    updatePackageSettings none m = m
  ∧ ∀ k : String,
      ((tmapFind (updatePackageSettings (some db) m) k).isSome = true
        ↔ db.importedPackageNames.contains k = true)
      ∧ (db.importedPackageNames.contains k = true →
          (m.map Prod.fst).contains k = false →
          tmapFind (updatePackageSettings (some db) m) k
            = some (db.isPackageDefaultPackage k))
      ∧ (db.importedPackageNames.contains k = true →
          (m.map Prod.fst).contains k = true →
          tmapFind (updatePackageSettings (some db) m) k = tmapFind m k) := by
  have hup : updatePackageSettings (some db) m
      = db.importedPackageNames.foldl
          (addPackageStep db (m.map Prod.fst))
          ((m.map Prod.fst).foldl (removePackageStep db.importedPackageNames) m) := rfl
  refine ⟨rfl, fun k => ⟨⟨?_, ?_⟩, ?_, ?_⟩⟩
  · intro hsome
    by_contra hni
    have hni' : db.importedPackageNames.contains k = false := by simpa using hni
    rw [hup,
      addFold_find_preserved db _ _ _ k
        (fun n hn _ he => absurd (by simpa using (he ▸ hn) : _) (by simpa using hni')),
      removeFold_keys, tmapFind_filter_not_imported _ _ _ hni'] at hsome
    simp at hsome
  · intro hin
    by_cases hcur : (m.map Prod.fst).contains k = true
    · rw [hup,
        addFold_find_preserved db _ _ _ k
          (fun n hn hnc he => by
            rw [he] at hnc
            rw [hnc] at hcur
            exact Bool.noConfusion hcur),
        removeFold_keys, tmapFind_filter_imported _ _ _ hin]
      exact tmapFind_isSome_of_contains m k hcur
    · have hcur' : (m.map Prod.fst).contains k = false := by simpa using hcur
      rw [hup, addFold_find_added db _ _ _ k (by simpa using hin) hcur']
      rfl
  · intro hin hcur
    rw [hup, addFold_find_added db _ _ _ k (by simpa using hin) hcur]
  · intro hin hcur
    rw [hup,
      addFold_find_preserved db _ _ _ k
        (fun n hn hnc he => by
          rw [he] at hnc
          rw [hnc] at hcur
          exact Bool.noConfusion hcur),
      removeFold_keys, tmapFind_filter_imported _ _ _ hin]

/-- C2 witness: with packages A (default) and B imported and previous
settings for B and C, the updated map gains A with its default flag, keeps
B's user value, and drops C. -/
theorem updatePackageSettings_spec_witness :
    tmapFind (updatePackageSettings (some articyDbW) packageLoadSettingsW) "A"
      = some (articyDbW.isPackageDefaultPackage "A")
  ∧ tmapFind (updatePackageSettings (some articyDbW) packageLoadSettingsW) "B"
      = tmapFind packageLoadSettingsW "B"
  ∧ ((tmapFind (updatePackageSettings (some articyDbW) packageLoadSettingsW) "C").isSome
      = true ↔ articyDbW.importedPackageNames.contains "C" = true) :=
  ⟨(((updatePackageSettings_spec articyDbW packageLoadSettingsW).2 "A").2.1
      (by decide) (by decide)),
   (((updatePackageSettings_spec articyDbW packageLoadSettingsW).2 "B").2.2
      (by decide) (by decide)),
   ((updatePackageSettings_spec articyDbW packageLoadSettingsW).2 "C").1⟩

/-- `flatMap` of singletons is `map`. -/
theorem flatMap_singleton_map {α β : Type} (l : List α) (g : α → β) :
    l.flatMap (fun a => [g a]) = l.map g := by
  induction l with
  | nil => rfl
  | cons a l ih => simp [ih]

/-- `classSummaryOf` ignores plain lines. -/
theorem classSummaryOf_line (txt : String) : classSummaryOf (.line txt) = none := rfl

/-- `classSummaryOf` ignores blank lines. -/
theorem classSummaryOf_blank : classSummaryOf .blank = none := rfl

/-- The class generated for a namespace summarizes to the claim-side
namespace class summary. -/
theorem nsClass_summary (ns : FArticyGVNamespace) :
    classSummaryOf (nsClassElem ns) = some (claimNamespaceClassSummary ns) := by
  unfold nsClassElem classSummaryOf claimNamespaceClassSummary nsClassBody
  simp only [List.filterMap_append, List.filterMap_cons, List.filterMap_nil,
    uvarOf, methodOf, lineOf]
  rw [filterMap_map_some ns.Variables
      (fun var =>
        CodeElem.variableDecl (var.cppTypeString ++ "*") var.Variable "nullptr"
          var.Description true
          ("VisibleAnywhere, BlueprintReadOnly, Category=\"" ++ ns.Namespace ++ "\""))
      uvarOf
      (fun var => (var.cppTypeString ++ "*", var.Variable)) (fun a => rfl),
    filterMap_map_none ns.Variables
      (fun var =>
        CodeElem.variableDecl (var.cppTypeString ++ "*") var.Variable "nullptr"
          var.Description true
          ("VisibleAnywhere, BlueprintReadOnly, Category=\"" ++ ns.Namespace ++ "\""))
      methodOf (fun a => rfl),
    filterMap_map_some ns.Variables
      (fun var =>
        CodeElem.line (var.Variable ++ " = CreateDefaultSubobject<"
          ++ var.cppTypeString ++ ">(\"" ++ var.Variable ++ "\");"))
      lineOf
      (fun var => var.Variable ++ " = CreateDefaultSubobject<" ++ var.cppTypeString
        ++ ">(\"" ++ var.Variable ++ "\");") (fun a => rfl),
    filterMap_flatMap_eq]
  simp
  rfl

/-- The namespace-class region of the header summarizes to one claim-side
summary per namespace, in order. -/
theorem nsClasses_summaries (nss : List FArticyGVNamespace) :
    (nss.flatMap (fun ns => [CodeElem.blank, nsClassElem ns])).filterMap classSummaryOf
      = nss.map claimNamespaceClassSummary := by
  induction nss with
  | nil => rfl
  | cons ns nss ih =>
    rw [List.flatMap_cons, List.filterMap_append, ih, List.filterMap_cons,
      List.filterMap_cons, List.filterMap_nil, nsClass_summary]
    rfl

/-- The generated global-variables class summarizes to the claim-side global
class summary. -/
theorem globalClass_summary (data : UArticyImportData) :
    classSummaryOf
        (.classDecl (data.globalVarsClassname ++ " : public UArticyGlobalVariables")
          "Global Articy Variables" true (globalClassBody data))
      = some (claimGlobalClassSummary data) := by
  unfold classSummaryOf claimGlobalClassSummary globalClassBody
  simp only [List.filterMap_append, List.filterMap_cons, List.filterMap_nil,
    uvarOf, methodOf, lineOf]
  rw [filterMap_map_some data.GlobalVariables.Namespaces
      (fun ns =>
        CodeElem.variableDecl (ns.CppTypename ++ "*") ns.Namespace "nullptr"
          ns.Description true
          ("VisibleAnywhere, BlueprintReadOnly, Category=\"" ++ ns.Namespace ++ "\""))
      uvarOf
      (fun ns => (ns.CppTypename ++ "*", ns.Namespace)) (fun a => rfl),
    filterMap_map_none data.GlobalVariables.Namespaces
      (fun ns =>
        CodeElem.variableDecl (ns.CppTypename ++ "*") ns.Namespace "nullptr"
          ns.Description true
          ("VisibleAnywhere, BlueprintReadOnly, Category=\"" ++ ns.Namespace ++ "\""))
      methodOf (fun a => rfl),
    filterMap_map_some data.GlobalVariables.Namespaces
      (fun ns =>
        CodeElem.line (ns.Namespace ++ " = CreateDefaultSubobject<"
          ++ ns.CppTypename ++ ">(\"" ++ ns.Namespace ++ "\");"))
      lineOf
      (fun ns => ns.Namespace ++ " = CreateDefaultSubobject<" ++ ns.CppTypename
        ++ ">(\"" ++ ns.Namespace ++ "\");") (fun a => rfl),
    filterMap_flatMap_eq]
  simp
  rfl

/-- C1: on a non-null import-data object, `GenerateCode` sets `OutFile` to
the global-vars classname and emits, for each namespace in order, one
`UArticyBaseVariableSet`-derived class with exactly one UPROPERTY pointer
per variable, a constructor with one `CreateDefaultSubobject` line per
variable and an `Init` method with one `Init` call and one `Variables.Add`
call per variable, followed by a single `UArticyGlobalVariables`-derived
class with one pointer per namespace, a constructor creating each namespace
subobject and then calling `Init()`, and an `Init` method calling each
namespace's `Init` and adding it to `VariableSets`. -/
theorem gvGenerateCode_structure (data : UArticyImportData) (outFile : String) :
    (generateCode (some data) outFile).1 = data.globalVarsClassnameFull
  ∧ ∃ doc, (generateCode (some data) outFile).2 = some doc
      ∧ docClassSummaries doc
          = data.GlobalVariables.Namespaces.map claimNamespaceClassSummary
            ++ [claimGlobalClassSummary data] := by
  refine ⟨rfl, gvHeaderContent data data.globalVarsClassnameFull, rfl, ?_⟩
  unfold docClassSummaries gvHeaderContent
  simp only [List.filterMap_append, List.filterMap_cons, List.filterMap_nil,
    classSummaryOf_line, classSummaryOf_blank, nsClasses_summaries,
    globalClass_summary]
  simp
